import Mathlib

/-!
Verification of the bookshelf add-book pipeline (src/add_book.py and
src/backend/app.py).  Python strings are embedded as `List Char`; the
regular expressions of the source are embedded as executable matchers
that follow the leftmost / lazy / greedy backtracking semantics of the
Python `re` module clause by clause.  Network calls are embedded as
`Except` valued oracles passed in as parameters.
-/

/-- Python whitespace for `\s` in `str` patterns and for `str.strip`:
the ASCII whitespace characters plus the Unicode space characters. -/
def isPyWs (c : Char) : Bool :=
  c == ' ' || c == '\t' || c == '\n' || c == '\r' || c == '\x0b' || c == '\x0c' ||
  c == '\x1c' || c == '\x1d' || c == '\x1e' || c == '\x1f' || c == '\x85' ||
  c == '\xa0' || c == ' ' || (' ' ≤ c && c ≤ ' ') ||
  c == ' ' || c == ' ' || c == ' ' || c == ' ' || c == '　'

/-- Python `str.strip()`: drop whitespace from both ends. -/
def pyStrip (l : List Char) : List Char :=
  ((l.dropWhile isPyWs).reverse.dropWhile isPyWs).reverse

/-- Match a literal character sequence case sensitively; return the rest. -/
def matchLit : List Char → List Char → Option (List Char)
  | [], s => some s
  | p :: ps, c :: cs => if c == p then matchLit ps cs else none
  | _ :: _, [] => none

/-- Match a literal character sequence case insensitively (re.I on ASCII
pattern text, as in the source patterns); return the rest. -/
def matchLitCI : List Char → List Char → Option (List Char)
  | [], s => some s
  | p :: ps, c :: cs => if c.toLower == p.toLower then matchLitCI ps cs else none
  | _ :: _, [] => none

/-- `re.search` driver: try the single-position matcher at every start
position from the left and return the first success. -/
def searchFrom (mAt : List Char → Option α) : List Char → Option α
  | [] => mAt []
  | c :: t =>
    match mAt (c :: t) with
    | some g => some g
    | none => searchFrom mAt t

/-- Truthiness of an optional Python string: `None` and `""` are falsy. -/
def optTruthy : Option (List Char) → Bool
  | some t => !t.isEmpty
  | none => false

/-- Python `sep.join(pieces)`. -/
def joinWith (sep : List Char) : List (List Char) → List Char
  | [] => []
  | [x] => x
  | x :: xs => x ++ sep ++ joinWith sep xs

/-- Python `s.replace("-", " ")` (single-character pattern, so a map). -/
def dashToSpace (l : List Char) : List Char :=
  l.map (fun c => if c == '-' then ' ' else c)

/-- Python `s.replace("_", " ")`. -/
def underToSpace (l : List Char) : List Char :=
  l.map (fun c => if c == '_' then ' ' else c)

/-! ## clean_page_title (src/add_book.py lines 90-112)

The pattern `^(.+?)\s+by\s+(.+?)(?:\s*[\|–—:\-]|$)` under `re.I` is
embedded by a matcher that enumerates the lazy group lengths from the
shortest and the greedy `\s+` lengths from the longest, exactly as the
backtracking engine does.  Both `\s+` occurrences followed by a
non-whitespace literal are forced to consume their whole whitespace run,
except the run after `by`, whose length genuinely backtracks because the
following lazy group can itself match whitespace. -/

/-- The terminator `(?:\s*[\|–—:\-]|$)` of the by-pattern: either
whitespace then one of the five separator characters, or the end of the
string (Python `$` also matches just before one final newline). -/
def termOk (s : List Char) : Bool :=
  (match s.dropWhile isPyWs with
   | c :: _ => c == '|' || c == '–' || c == '—' || c == ':' || c == '-'
   | [] => false)
  || s.isEmpty || s == ['\n']

/-- The lazy group `(.+?)` of the by-pattern followed by the terminator:
the shortest non-empty newline-free prefix whose remainder satisfies the
terminator. -/
def findGroup2 (s : List Char) : Option (List Char) :=
  (List.range s.length).findSome? fun jm =>
    let j := jm + 1
    if (s.take j).all (fun c => !(c == '\n')) && termOk (s.drop j) then
      some (s.take j)
    else none

/-- The greedy `\s+` after `by` followed by the lazy second group:
consume from the whole whitespace run down to one character. -/
def afterBy (s : List Char) : Option (List Char) :=
  let v := (s.takeWhile isPyWs).length
  (List.range v).findSome? fun d => findGroup2 (s.drop (v - d))

/-- `re.match(r"^(.+?)\s+by\s+(.+?)(?:\s*[\|–—:\-]|$)", t, re.I)`:
returns the two captured groups.  The first lazy group is enumerated
from length one upward; after it the pattern forces the whole whitespace
run, the literal `by` case-insensitively, and a second whitespace run. -/
def byMatch (t : List Char) : Option (List Char × List Char) :=
  (List.range t.length).findSome? fun im =>
    let i := im + 1
    let g1 := t.take i
    if g1.all (fun c => !(c == '\n')) then
      let s := t.drop i
      let w := (s.takeWhile isPyWs).length
      if w ≥ 1 then
        match s.drop w with
        | b :: y :: rest =>
          if (b == 'b' || b == 'B') && (y == 'y' || y == 'Y') then
            match afterBy rest with
            | some g2 => some (g1, g2)
            | none => none
          else none
        | _ => none
      else none
    else none

/-- One match of `\s*[\|–—]\s*` anchored at the head of the list, as
used by `re.split` in clean_page_title: whitespace, one separator
character, whitespace; returns the rest after the match. -/
def trySepMatch (l : List Char) : Option (List Char) :=
  match l.dropWhile isPyWs with
  | c :: rest =>
    if c == '|' || c == '–' || c == '—' then some (rest.dropWhile isPyWs) else none
  | [] => none

theorem length_dropWhile_le' (p : Char → Bool) (l : List Char) :
    (l.dropWhile p).length ≤ l.length := by
  induction l with
  | nil => simp
  | cons c t ih =>
    by_cases hc : p c
    · simp only [List.dropWhile_cons, hc, if_true, List.length_cons]
      omega
    · simp [List.dropWhile_cons, hc]

theorem trySepMatch_length {l r : List Char} (h : trySepMatch l = some r) :
    r.length < l.length := by
  have h1 : (l.dropWhile isPyWs).length ≤ l.length := length_dropWhile_le' _ _
  unfold trySepMatch at h
  split at h
  next c rest hd =>
    rw [hd] at h1
    split at h
    · cases h
      have h2 := length_dropWhile_le' isPyWs rest
      simp only [List.length_cons] at h1
      omega
    · cases h
  next hd => cases h

/-- Prepend a character to the piece being accumulated at the head of a
piece list. -/
def consPiece (c : Char) : List (List Char) → List (List Char)
  | p :: ps => (c :: p) :: ps
  | [] => [[c]]

/-- One scanning step of `re.split(r"\s*[\|–—]\s*", t)`, structurally
recursive on a fuel argument so that the kernel can evaluate it; the
fuel decreases by one per step while the scanned list loses at least one
character per separator match, so a fuel of `length + 1` never runs out
(`reSplitSepGo_stable` below makes the fuel irrelevance precise). -/
def reSplitSepGo (fuel : Nat) (l : List Char) : List (List Char) :=
  match fuel with
  | 0 => [l]
  | fuel + 1 =>
    (trySepMatch l).elim
      (match l with
       | [] => [[]]
       | c :: t => consPiece c (reSplitSepGo fuel t))
      (fun r => [] :: reSplitSepGo fuel r)

/-- `re.split(r"\s*[\|–—]\s*", t)`: scan left to right; at each position
try the separator match; on a match close the current piece and continue
after the match. -/
def reSplitSep (l : List Char) : List (List Char) :=
  reSplitSepGo (l.length + 1) l

theorem reSplitSepGo_stable (f : Nat) : ∀ (g : Nat) (l : List Char),
    l.length < f → l.length < g → reSplitSepGo f l = reSplitSepGo g l := by
  induction f with
  | zero => intro g l hf hg; omega
  | succ f' ih =>
    intro g l hf hg
    cases g with
    | zero => omega
    | succ g' =>
      cases hm : trySepMatch l with
      | some r =>
        have hr := trySepMatch_length hm
        simp only [reSplitSepGo, hm, Option.elim]
        rw [ih g' r (by omega) (by omega)]
      | none =>
        cases l with
        | nil => simp [reSplitSepGo, hm]
        | cons c t =>
          have ht : t.length < f' := by simp only [List.length_cons] at hf; omega
          have ht2 : t.length < g' := by simp only [List.length_cons] at hg; omega
          simp only [reSplitSepGo, hm, Option.elim]
          rw [ih g' t ht ht2]

/-- src/add_book.py lines 90-112, `clean_page_title`: on an `X by Y`
match return stripped title, a space, and the author cut at the first
`|`, en dash or em dash, stripped; otherwise split on separators, strip,
keep pieces longer than four characters, and return the first piece if
longer than eight characters, else the first two joined by a space;
otherwise the input unchanged. -/
def clean_page_title (t : List Char) : List Char :=
  match byMatch t with
  | some (g1, g2) =>
    pyStrip g1 ++ ' ' ::
      pyStrip (g2.takeWhile (fun c => !(c == '|' || c == '–' || c == '—')))
  | none =>
    match ((reSplitSep t).map pyStrip).filter (fun p => 4 < p.length) with
    | p0 :: _ =>
      if 8 < p0.length then p0
      else joinWith [' ']
        ((((reSplitSep t).map pyStrip).filter (fun p => 4 < p.length)).take 2)
    | [] => t

example : clean_page_title ("Pond by Claire-Louise Bennett | Fitzcarraldo Editions".toList)
    = ("Pond Claire".toList) := by decide
example : clean_page_title ("Some Long Descriptive Title – Publisher Name".toList)
    = ("Some Long Descriptive Title".toList) := by decide
example : clean_page_title ("A by B C | D".toList) = ("A B C".toList) := by decide
example : clean_page_title ("Hi – there – you".toList) = ("there".toList) := by decide
example : clean_page_title ("x".toList) = ("x".toList) := by decide
example : clean_page_title ("Title by Author: subtitle".toList)
    = ("Title Author".toList) := by decide

/-! ## fetch_page_info (src/add_book.py lines 32-87)

The network fetch is embedded as an `Except String (List Char)` value:
`Except.error` is any exception raised by the request (network failure,
timeout, bad status), `Except.ok raw` is the decoded 80000-byte prefix
of the body.  The three og:image patterns, the two og:title patterns,
the `<title>` pattern and the `<h1>` pattern are embedded clause by
clause below. -/

/-- The character class `["\']`. -/
def isQuote (c : Char) : Bool := c == '"' || c == '\''

/-- Match `["\']`, returning the rest. -/
def quoteChar : List Char → Option (List Char)
  | c :: r => if isQuote c then some r else none
  | [] => none

/-- `(https?://[^"\']+)["\']` under re.I: the optional `s` is greedy, the
character class run is forced to end at the first quote, which must
exist.  Returns the captured group (original text) and the rest after
the closing quote. -/
def urlBody (pre r : List Char) : Option (List Char × List Char) :=
  let run := r.takeWhile (fun c => !(isQuote c))
  if run.isEmpty then none
  else
    match r.drop run.length with
    | q :: rest => if isQuote q then some (pre ++ run, rest) else none
    | [] => none

def matchUrlGroup (s : List Char) : Option (List Char × List Char) :=
  match matchLitCI ("https://".toList) s with
  | some r => urlBody (s.take 8) r
  | none =>
    match matchLitCI ("http://".toList) s with
    | some r => urlBody (s.take 7) r
    | none => none

/-- `content=["\'](https?://[^"\']+)["\']` under re.I. -/
def matchContentAt (s : List Char) : Option (List Char × List Char) :=
  (matchLitCI ("content=".toList) s).bind fun r =>
  (quoteChar r).bind fun r2 => matchUrlGroup r2

/-- The greedy bridge `[^>]+` followed by a continuation: consume from
the whole non-`>` run down to one character, longest first, as the
backtracking engine does. -/
def bridgeThen (cont : List Char → Option α) (s : List Char) : Option α :=
  let run := s.takeWhile (fun c => !(c == '>'))
  (List.range run.length).findSome? fun d => cont (s.drop (run.length - d))

/-- Pattern 1 of the cover loop:
`property=["\']og:image["\'][^>]+content=["\'](https?://[^"\']+)["\']`. -/
def p1At (s : List Char) : Option (List Char) :=
  (matchLitCI ("property=".toList) s).bind fun r =>
  (quoteChar r).bind fun r2 =>
  (matchLitCI ("og:image".toList) r2).bind fun r3 =>
  (quoteChar r3).bind fun r4 =>
  bridgeThen (fun r5 => (matchContentAt r5).map (fun g => g.1)) r4

/-- Pattern 2 of the cover loop:
`content=["\'](https?://[^"\']+)["\'][^>]+property=["\']og:image["\']`. -/
def p2At (s : List Char) : Option (List Char) :=
  (matchContentAt s).bind fun g =>
  (bridgeThen (fun r =>
      (matchLitCI ("property=".toList) r).bind fun r2 =>
      (quoteChar r2).bind fun r3 =>
      (matchLitCI ("og:image".toList) r3).bind fun r4 =>
      quoteChar r4) g.2).map (fun _ => g.1)

/-- Pattern 3 of the cover loop:
`name=["\']og:image["\'][^>]+content=["\'](https?://[^"\']+)["\']`. -/
def p3At (s : List Char) : Option (List Char) :=
  (matchLitCI ("name=".toList) s).bind fun r =>
  (quoteChar r).bind fun r2 =>
  (matchLitCI ("og:image".toList) r2).bind fun r3 =>
  (quoteChar r3).bind fun r4 =>
  bridgeThen (fun r5 => (matchContentAt r5).map (fun g => g.1)) r4

/-- Modelled subset of Python `html.unescape`: the five predefined XML
entities; all other entity references are left unchanged.  No claim in
this development depends on entity decoding beyond totality. -/
def htmlUnescape : List Char → List Char
  | '&' :: 'a' :: 'm' :: 'p' :: ';' :: r => '&' :: htmlUnescape r
  | '&' :: 'l' :: 't' :: ';' :: r => '<' :: htmlUnescape r
  | '&' :: 'g' :: 't' :: ';' :: r => '>' :: htmlUnescape r
  | '&' :: 'q' :: 'u' :: 'o' :: 't' :: ';' :: r => '"' :: htmlUnescape r
  | '&' :: '#' :: '3' :: '9' :: ';' :: r => '\'' :: htmlUnescape r
  | c :: t => c :: htmlUnescape t
  | [] => []

/-- The cover extraction loop of fetch_page_info: the three patterns in
order, first `re.search` hit wins; the captured URL is stripped and
entity-decoded (`html.unescape(m.group(1).strip())`). -/
def extract_cover (raw : List Char) : Option (List Char) :=
  match searchFrom p1At raw with
  | some g => some (htmlUnescape (pyStrip g))
  | none =>
    match searchFrom p2At raw with
    | some g => some (htmlUnescape (pyStrip g))
    | none => (searchFrom p3At raw).map (fun g => htmlUnescape (pyStrip g))

/-- The lazy group `(.*?)["\']` of the og:title patterns when nothing
follows the closing quote: the group is the newline-free run up to the
first quote, which must exist. -/
def lazyToQuote (s : List Char) : Option (List Char) :=
  let run := s.takeWhile (fun c => !(isQuote c) && !(c == '\n'))
  match s.drop run.length with
  | q :: _ => if isQuote q then some run else none
  | [] => none

/-- Pattern 1 of the title chain:
`property=["\']og:title["\'][^>]+content=["\'](.*?)["\']`. -/
def t1At (s : List Char) : Option (List Char) :=
  (matchLitCI ("property=".toList) s).bind fun r =>
  (quoteChar r).bind fun r2 =>
  (matchLitCI ("og:title".toList) r2).bind fun r3 =>
  (quoteChar r3).bind fun r4 =>
  bridgeThen (fun r5 =>
    (matchLitCI ("content=".toList) r5).bind fun r6 =>
    (quoteChar r6).bind fun r7 => lazyToQuote r7) r4

/-- The tail `[^>]+property=["\']og:title["\']` of the reversed og:title
pattern. -/
def t2TailOk (r : List Char) : Bool :=
  (bridgeThen (fun r2 =>
      (matchLitCI ("property=".toList) r2).bind fun r3 =>
      (quoteChar r3).bind fun r4 =>
      (matchLitCI ("og:title".toList) r4).bind fun r5 =>
      quoteChar r5) r).isSome

/-- Pattern 2 of the title chain:
`content=["\'](.*?)["\'][^>]+property=["\']og:title["\']`.  The lazy
group backtracks across closing-quote candidates: the shortest
newline-free prefix ending at a quote whose tail matches wins. -/
def t2At (s : List Char) : Option (List Char) :=
  (matchLitCI ("content=".toList) s).bind fun r =>
  (quoteChar r).bind fun r2 =>
  (List.range (r2.length + 1)).findSome? fun j =>
    if (r2.take j).all (fun c => !(c == '\n')) then
      match r2.drop j with
      | q :: rest => if isQuote q && t2TailOk rest then some (r2.take j) else none
      | [] => none
    else none

/-- `<title[^>]*>(.*?)</title>` under re.I|re.S: the `[^>]*` run is
forced up to the first `>`, the lazy group (any characters, including
newlines) ends at the first case-insensitive `</title>`. -/
def titleTagAt (s : List Char) : Option (List Char) :=
  (matchLitCI ("<title".toList) s).bind fun r =>
  let run := r.takeWhile (fun c => !(c == '>'))
  match r.drop run.length with
  | _ :: r2 =>
    (List.range (r2.length + 1)).findSome? fun j =>
      if (matchLitCI ("</title>".toList) (r2.drop j)).isSome then some (r2.take j)
      else none
  | [] => none

/-- `<h1[^>]*>(.*?)</h1>` under re.I|re.S, analogous to the title tag. -/
def h1At (s : List Char) : Option (List Char) :=
  (matchLitCI ("<h1".toList) s).bind fun r =>
  let run := r.takeWhile (fun c => !(c == '>'))
  match r.drop run.length with
  | _ :: r2 =>
    (List.range (r2.length + 1)).findSome? fun j =>
      if (matchLitCI ("</h1>".toList) (r2.drop j)).isSome then some (r2.take j)
      else none
  | [] => none

/-- `re.sub(r"<[^>]+>", "", s)`: remove every tag-shaped run, scanning
left to right, with the structural fuel pattern used for the splitter. -/
def stripTagsGo (fuel : Nat) (l : List Char) : List Char :=
  match fuel with
  | 0 => l
  | fuel + 1 =>
    match l with
    | [] => []
    | c :: t =>
      if c == '<' then
        let run := t.takeWhile (fun x => !(x == '>'))
        if run.isEmpty then c :: stripTagsGo fuel t
        else
          match t.drop run.length with
          | _ :: r => stripTagsGo fuel r
          | [] => c :: stripTagsGo fuel t
      else c :: stripTagsGo fuel t

def stripTags (l : List Char) : List Char := stripTagsGo (l.length + 1) l

/-- The result record of fetch_page_info. -/
structure PageInfo where
  title : Option (List Char)
  cover : Option (List Char)
deriving DecidableEq

/-- The title chain of fetch_page_info: og:title (both orderings), then
`<title>`, then `<h1>` with inner tags stripped, each fallback attempted
only when the previous value is falsy (`None` or the empty string). -/
def extract_title (raw : List Char) : Option (List Char) :=
  let r1 : Option (List Char) :=
    match searchFrom t1At raw with
    | some g => some (pyStrip (htmlUnescape g))
    | none => (searchFrom t2At raw).map (fun g => pyStrip (htmlUnescape g))
  let r2 : Option (List Char) :=
    if optTruthy r1 then r1
    else
      match searchFrom titleTagAt raw with
      | some g => some (pyStrip (htmlUnescape g))
      | none => r1
  if optTruthy r2 then r2
  else
    match searchFrom h1At raw with
    | some g => some (pyStrip (htmlUnescape (stripTags g)))
    | none => r2

/-- src/add_book.py lines 32-87, `fetch_page_info`: any exception from
the request is caught and the initial all-empty result returned (with a
printed warning); otherwise the cover and title extraction chains run on
the fetched text.  Total by construction: no failure escapes. -/
def fetch_page_info : Except String (List Char) → PageInfo
  | .error _ => ⟨none, none⟩
  | .ok raw => ⟨extract_title raw, extract_cover raw⟩

example : extract_cover
    ("<meta property=\"og:image\" content=\"http://covers.example.com/pond.jpg\"/>".toList)
    = some ("http://covers.example.com/pond.jpg".toList) := by decide
example : extract_cover
    ("<meta property=\"og:image\" x content=\"y\" content=\"http://a/a.png\">".toList)
    = some ("http://a/a.png".toList) := by decide
example : extract_title
    ("<meta content=\"X\" id=\"z\" property=\"og:title\">".toList)
    = some ("X".toList) := by decide
example : extract_title
    ("<meta content=\"A\" property=\"nope\"> <meta content=\"B\" property=\"og:title\">".toList)
    = some ("A\" property=\"nope\"> <meta content=".toList) := by decide
example : extract_title ("<html><title> Pond </title>".toList)
    = some ("Pond".toList) := by decide
example : extract_title ("<h1 class=\"t\">A <b>bold</b> one</h1>".toList)
    = some ("A bold one".toList) := by decide
example : stripTags ("<a<b>c<d>".toList) = "c".toList := by decide
example : fetch_page_info (.error "timeout") = ⟨none, none⟩ := by decide

/-! ## Google Books (src/add_book.py lines 175-221)

`_gb_fetch` is embedded over an oracle giving, per request, either the
parsed `items` list of the JSON response (missing key yields `[]` inside
the oracle's answer) or an exception.  The two request URLs
`…?q=isbn:<clean>` and `…?q=<quoted query>&maxResults=5` are embedded as
a request descriptor carrying exactly the data that varies. -/

/-- One entry of `volumeInfo.industryIdentifiers`. -/
structure IndustryId where
  type : List Char
  identifier : List Char
deriving DecidableEq

/-- The `imageLinks` map, one optional URL per size key used by the
source. -/
structure ImageLinks where
  extraLarge : Option (List Char) := none
  large : Option (List Char) := none
  medium : Option (List Char) := none
  thumbnail : Option (List Char) := none
deriving DecidableEq

/-- The `volumeInfo` object; absent keys are `none`. -/
structure VolumeInfo where
  title : Option (List Char) := none
  authors : Option (List (List Char)) := none
  publisher : Option (List Char) := none
  publishedDate : Option (List Char) := none
  categories : Option (List (List Char)) := none
  industryIdentifiers : Option (List IndustryId) := none
  imageLinks : Option ImageLinks := none
  description : Option (List Char) := none
deriving DecidableEq

/-- A catalog item. -/
structure Item where
  id : Option (List Char) := none
  volumeInfo : Option VolumeInfo := none
deriving DecidableEq

/-- The record dict returned by `_parse_volume`. -/
structure Book where
  google_id : List Char
  title : List Char
  author : List Char
  publisher : List Char
  published_year : List Char
  genre : List Char
  description : List Char
  isbn : List Char
  cover_url : List Char
deriving DecidableEq

/-- Python `a or b` for an optional string `a`: `None` and `""` are
falsy. -/
def orStr : Option (List Char) → List Char → List Char
  | some s, d => if s.isEmpty then d else s
  | none, d => d

/-- `img.get("extraLarge") or img.get("large") or img.get("medium") or
img.get("thumbnail", "")`. -/
def pickCover (img : ImageLinks) : List Char :=
  orStr img.extraLarge (orStr img.large (orStr img.medium (img.thumbnail.getD [])))

/-- `re.sub(r"&zoom=\d", "", cover)`: remove every `&zoom=` followed by
one digit, scanning left to right (`\d` embedded as an ASCII digit; the
source never receives non-ASCII digits here). -/
def subZoom : List Char → List Char
  | '&' :: 'z' :: 'o' :: 'o' :: 'm' :: '=' :: d :: r =>
    if d.isDigit then subZoom r
    else '&' :: subZoom ('z' :: 'o' :: 'o' :: 'm' :: '=' :: d :: r)
  | c :: t => c :: subZoom t
  | [] => []

/-- `.replace("http://", "https://")`: replace every occurrence,
scanning left to right and continuing after the replacement. -/
def replaceHttp : List Char → List Char
  | 'h' :: 't' :: 't' :: 'p' :: ':' :: '/' :: '/' :: r =>
    'h' :: 't' :: 't' :: 'p' :: 's' :: ':' :: '/' :: '/' :: replaceHttp r
  | c :: t => c :: replaceHttp t
  | [] => []

/-- The identifier dict comprehension then lookup: Python dict
comprehensions keep the last entry for a duplicated key. -/
def idLookup (l : List IndustryId) (ty : List Char) : Option (List Char) :=
  (l.reverse.find? (fun i => i.type == ty)).map (fun i => i.identifier)

/-- src/add_book.py lines 203-221, `_parse_volume`: normalize the first
catalog item into the record dict; cover preference extraLarge > large >
medium > thumbnail > empty, then `&zoom=<digit>` removal, then http to
https. -/
def parse_volume (item : Item) : Book :=
  let info := item.volumeInfo.getD {}
  let ids := info.industryIdentifiers.getD []
  let img := info.imageLinks.getD {}
  let cover := replaceHttp (subZoom (pickCover img))
  let cats := info.categories.getD []
  { google_id := item.id.getD []
    title := info.title.getD ("Unknown Title".toList)
    author := joinWith (", ".toList) (info.authors.getD ["Unknown Author".toList])
    publisher := info.publisher.getD []
    published_year := (orStr info.publishedDate []).take 4
    genre := match cats with | g :: _ => g | [] => []
    description := info.description.getD []
    isbn := orStr (idLookup ids ("ISBN_13".toList)) ((idLookup ids ("ISBN_10".toList)).getD [])
    cover_url := cover }

/-- A Google Books request: ISBN-exact (`?q=isbn:<clean>`) or free text
(`?q=<urlencoded query>&maxResults=<n>`). -/
inductive GBReq where
  | isbnExact (isbn : List Char)
  | freeText (query : List Char) (maxResults : Nat)
deriving DecidableEq

/-- src/add_book.py lines 177-184, `_gb_fetch`: any exception during the
request or JSON parse is caught (with a printed notice) and `[]`
returned; otherwise the `items` list (default `[]`) of the response. -/
def gb_fetch (net : GBReq → Except (List Char) (List Item)) (r : GBReq) : List Item :=
  match net r with
  | .ok items => items
  | .error _ => []

/-- `re.sub(r"[-\s]", "", query)`: drop hyphens and whitespace. -/
def gbClean (q : List Char) : List Char :=
  q.filter (fun c => !(c == '-' || isPyWs c))

/-- `re.fullmatch(r"\d{13}", clean)`: exactly thirteen digits (`\d`
embedded as ASCII digits). -/
def gbIsbnShaped (q : List Char) : Bool :=
  (gbClean q).length == 13 && (gbClean q).all Char.isDigit

/-- src/add_book.py lines 187-200, `search_google_books`: if the cleaned
query is ISBN-shaped, try the ISBN-exact request first and return its
first item when non-empty; otherwise (and for non-ISBN queries) run the
free-text request with maxResults 5 and return its first item, or `None`
when that is also empty.  The second component records the requests
actually issued, in order. -/
def search_google_books (net : GBReq → Except (List Char) (List Item))
    (query : List Char) : Option Book × List GBReq :=
  if gbIsbnShaped query then
    match gb_fetch net (GBReq.isbnExact (gbClean query)) with
    | item :: _ => (some (parse_volume item), [GBReq.isbnExact (gbClean query)])
    | [] =>
      match gb_fetch net (GBReq.freeText query 5) with
      | item :: _ =>
        (some (parse_volume item), [GBReq.isbnExact (gbClean query), GBReq.freeText query 5])
      | [] => (none, [GBReq.isbnExact (gbClean query), GBReq.freeText query 5])
  else
    match gb_fetch net (GBReq.freeText query 5) with
    | item :: _ => (some (parse_volume item), [GBReq.freeText query 5])
    | [] => (none, [GBReq.freeText query 5])

example : gbIsbnShaped ("978-0374533557 ".toList) = true := by decide
example : gbIsbnShaped ("Pond Bennett".toList) = false := by decide
example : subZoom ("https://a/b?c=d&zoom=12".toList) = "https://a/b?c=d2".toList := by decide
example : replaceHttp ("http://x/img?zoom=1".toList) = "https://x/img?zoom=1".toList := by decide
/-- The catalog item of the C3 example: `imageLinks` holding only a
thumbnail of `http://x/img?zoom=1`. -/
def c3Item : Item :=
  { volumeInfo := some { imageLinks := some { thumbnail := some ("http://x/img?zoom=1".toList) } } }

example : (parse_volume c3Item).cover_url = "https://x/img?zoom=1".toList := by decide

/-! ## Query builders (src/add_book.py lines 28-29 and 115-172,
src/backend/app.py lines 40-98)

Both variants fetch only the input URL itself, so a single `PageInfo`
parameter stands for the result of every `fetch_page_info(raw)` call of
a run (the CLI goodreads fallthrough refetches the same URL).  The
interactive `input()` of the CLI last-resort branch is a further
parameter. -/

/-- src/add_book.py lines 28-29, `is_url`. -/
def is_url (s : List Char) : Bool :=
  ("http://".toList).isPrefixOf s || ("https://".toList).isPrefixOf s

/-- Python `pat in s` for strings: substring containment. -/
def containsSub (pat s : List Char) : Bool :=
  (searchFrom (fun r => matchLit pat r) s).isSome

/-- `re.search(r"amazon\.[^/]+/([A-Za-z][^/]{4,})/dp/", raw)` at one
position: the literal `amazon.`, a non-empty run up to the next `/`,
then the captured path segment (a letter then at least four non-`/`
characters) immediately followed by `/dp/`. -/
def amazonSlugAt (s : List Char) : Option (List Char) :=
  (matchLit ("amazon.".toList) s).bind fun r =>
  let run := r.takeWhile (fun c => !(c == '/'))
  if run.isEmpty then none
  else
    match r.drop run.length with
    | _ :: r2 =>
      match r2 with
      | c :: t =>
        if c.isAlpha then
          let run2 := t.takeWhile (fun x => !(x == '/'))
          if 4 ≤ run2.length then
            match matchLit ("/dp/".toList) (t.drop run2.length) with
            | some _ => some (c :: run2)
            | none => none
          else none
        else none
      | [] => none
    | [] => none

def amazonSlug (s : List Char) : Option (List Char) := searchFrom amazonSlugAt s

/-- `re.search(r"goodreads\.com/book/show/\d+[.-](.+?)(?:\?|$)", raw)`
at one position: the literal prefix, a non-empty digit run, one `.` or
`-`, then the lazy group up to the first `?` or the end of the string
(Python `$` also matches just before one final newline). -/
def goodreadsSlugAt (s : List Char) : Option (List Char) :=
  (matchLit ("goodreads.com/book/show/".toList) s).bind fun r =>
  let digits := r.takeWhile Char.isDigit
  if digits.isEmpty then none
  else
    match r.drop digits.length with
    | c :: t =>
      if c == '.' || c == '-' then
        (List.range t.length).findSome? fun jm =>
          let j := jm + 1
          if (t.take j).all (fun x => !(x == '\n')) then
            match t.drop j with
            | '?' :: _ => some (t.take j)
            | [] => some (t.take j)
            | ['\n'] => some (t.take j)
            | _ => none
          else none
      else none
    | [] => none

def goodreadsSlug (s : List Char) : Option (List Char) := searchFrom goodreadsSlugAt s

/-- The generic tail of the CLI query builder (src/add_book.py lines
155-172): use the page title cleaned when truthy, else ask the user and
strip the reply (returned with no cover). -/
def generic_branch (info : PageInfo) (userInput : List Char) :
    List Char × Option (List Char) :=
  if optTruthy info.title then (clean_page_title (info.title.getD []), info.cover)
  else (pyStrip userInput, none)

/-- src/add_book.py lines 115-172, `get_search_query_and_cover`:
plain text passes through with no cover; an amazon URL uses the path
slug (hyphens to spaces) as query while still fetching the page for the
cover, or falls back to the cleaned page title (or the raw URL); a
goodreads URL uses its slug (hyphens and underscores to spaces) or the
cleaned page title, falling through to the generic tail when the page
has no truthy title; every other URL takes the generic tail. -/
def get_search_query_and_cover (raw : List Char) (info : PageInfo)
    (userInput : List Char) : List Char × Option (List Char) :=
  if !(is_url raw) then (raw, none)
  else if containsSub ("amazon.".toList) raw then
    match amazonSlug raw with
    | some g => (dashToSpace g, info.cover)
    | none =>
      ((if optTruthy info.title then clean_page_title (info.title.getD []) else raw),
       info.cover)
  else if containsSub ("goodreads.com".toList) raw then
    match goodreadsSlug raw with
    | some g => (underToSpace (dashToSpace g), info.cover)
    | none =>
      if optTruthy info.title then (clean_page_title (info.title.getD []), info.cover)
      else generic_branch info userInput
  else generic_branch info userInput

/-- src/backend/app.py lines 47-79, the non-interactive query derivation
of the `/api/add-book` handler: same hostname dispatch, but the amazon
slug branch sets only the query, performing no page fetch, so its cover
stays `None`; all other URL branches fetch and keep the page cover, and
a falsy page title leaves the raw input as the query. -/
def app_query_and_cover (raw : List Char) (info : PageInfo) :
    List Char × Option (List Char) :=
  if !(is_url raw) then (raw, none)
  else if containsSub ("amazon.".toList) raw then
    match amazonSlug raw with
    | some g => (dashToSpace g, none)
    | none =>
      ((if optTruthy info.title then clean_page_title (info.title.getD []) else raw),
       info.cover)
  else if containsSub ("goodreads.com".toList) raw then
    ((match goodreadsSlug raw with
      | some g => underToSpace (dashToSpace g)
      | none => if optTruthy info.title then clean_page_title (info.title.getD []) else raw),
     info.cover)
  else
    ((if optTruthy info.title then clean_page_title (info.title.getD []) else raw),
     info.cover)

/-- src/add_book.py lines 350-355 of `main`: a truthy page cover
replaces the catalog cover and marks the source `page image ✓`, else
the catalog cover stays and the source is `Google Books`.  Returns the
record's final `cover_url` and `cover_source`. -/
def main_apply_cover (cover_url : List Char) (page_cover : Option (List Char)) :
    List Char × List Char :=
  match page_cover with
  | some p => if p.isEmpty then (cover_url, "Google Books".toList)
              else (p, "page image ✓".toList)
  | none => (cover_url, "Google Books".toList)

/-- src/backend/app.py lines 88-93: a truthy page cover is written to
the record's `coverUrl` with `coverSource = page`, else the catalog
cover stands with `coverSource = Google Books`.  Returns the record's
final cover URL and `coverSource`. -/
def app_apply_cover (cover_url : List Char) (page_cover : Option (List Char)) :
    List Char × List Char :=
  match page_cover with
  | some p => if p.isEmpty then (cover_url, "Google Books".toList)
              else (p, "page".toList)
  | none => (cover_url, "Google Books".toList)

example : amazonSlug ("https://www.amazon.com/Pond-Claire-Louise-Bennett/dp/0399575892".toList)
    = some ("Pond-Claire-Louise-Bennett".toList) := by decide
example : amazonSlug ("https://www.amazon.com/dp/0399575892".toList) = none := by decide
example : goodreadsSlug ("https://www.goodreads.com/book/show/25218192-pond?ref=x".toList)
    = some ("pond".toList) := by decide
example : get_search_query_and_cover ("Pond Claire-Louise Bennett".toList) ⟨none, none⟩ []
    = ("Pond Claire-Louise Bennett".toList, none) := by decide

/-! ## Claims -/

/-- Claim C1: the spec (and the docstring of clean_page_title itself)
says the function turns `Pond by Claire-Louise Bennett | Fitzcarraldo
Editions` into `Pond Claire-Louise Bennett`.  The code instead returns
`Pond Claire`: the terminator class `[\|–—:\-]` of the by-pattern
contains the ASCII hyphen, so the lazy author group stops at the hyphen
inside `Claire-Louise`.  This theorem evaluates the code at the failing
input. -/
theorem C1_clean_page_title_failing_input :
    clean_page_title ("Pond by Claire-Louise Bennett | Fitzcarraldo Editions".toList)
      = "Pond Claire".toList := by decide

/-- The page body of the C2 counterexample: an og:image meta tag whose
content is an http URL. -/
def c2Body : List Char :=
  "<meta property=\"og:image\" content=\"http://covers.example.com/pond.jpg\"/>".toList

/-- Claim C2 counterexample: a record produced by the pipeline from a
page whose og:image is an http URL has a non-empty coverUrl that is not
https — the page-scraped cover is handed onward verbatim, with no scheme
upgrade. -/
theorem C2_counterexample :
    (main_apply_cover ("https://books.google.com/x.jpg".toList)
        (fetch_page_info (Except.ok c2Body)).cover).1 ≠ [] ∧
    ("https://".toList).isPrefixOf
        (main_apply_cover ("https://books.google.com/x.jpg".toList)
          (fetch_page_info (Except.ok c2Body)).cover).1 = false := by decide

/-- Claim C2, amended: only catalog-sourced covers get the http to https
upgrade (inside parse_volume); a catalog cover starting with `http://`
starts with `https://` after normalization, while a truthy page-scraped
cover is handed onward verbatim by the reconciliation step. -/
theorem C2_amended (s c p : List Char) :
    replaceHttp (subZoom ("http://".toList ++ s))
      = "https://".toList ++ replaceHttp (subZoom s) ∧
    (p ≠ [] → (main_apply_cover c (some p)).1 = p) := by
  refine ⟨rfl, fun hp => ?_⟩
  cases p with
  | nil => exact absurd rfl hp
  | cons a t => rfl

/-- Witness for C2_amended at a concrete catalog cover and page cover. -/
theorem C2_amended_witness :
    replaceHttp (subZoom ("http://".toList ++ "x/img".toList))
      = "https://".toList ++ replaceHttp (subZoom ("x/img".toList)) ∧
    (main_apply_cover ("c".toList) (some ("http://p.jpg".toList))).1
      = "http://p.jpg".toList :=
  ⟨(C2_amended ("x/img".toList) ("c".toList) ("http://p.jpg".toList)).1,
   (C2_amended ("x/img".toList) ("c".toList) ("http://p.jpg".toList)).2 (by decide)⟩

/-- Claim C3 counterexample: for the catalog item whose imageLinks hold
only `thumbnail = http://x/img?zoom=1`, the normalized cover is not the
`https://x/img` the spec states. -/
theorem C3_counterexample :
    (parse_volume c3Item).cover_url ≠ "https://x/img".toList := by decide

/-- Claim C3, amended: the normalized cover is `https://x/img?zoom=1` —
the scheme is forced to https, but only `&zoom=<digit>` occurrences are
stripped, and a zoom parameter introduced by `?` is kept. -/
theorem C3_amended :
    (parse_volume c3Item).cover_url = "https://x/img?zoom=1".toList := by decide

/-- Claim C5 counterexample: with no scraped cover, the record's
coverSource is the literal `Google Books`, not the `catalog` of the
claim (the HTTP endpoint shown; the CLI writes the same string). -/
theorem C5_counterexample :
    (app_apply_cover ("https://gb.example/c.jpg".toList) none).2
      ≠ "catalog".toList := by decide

/-- Claim C5, amended: a present non-empty scraped cover unconditionally
overwrites the catalog cover, with coverSource `page` in the HTTP
endpoint and `page image ✓` in the CLI; with no scraped cover both
variants keep the catalog cover and set coverSource to the catalog
marker `Google Books`. -/
theorem C5_amended (c p : List Char) (hp : p ≠ []) :
    main_apply_cover c (some p) = (p, "page image ✓".toList) ∧
    app_apply_cover c (some p) = (p, "page".toList) ∧
    main_apply_cover c none = (c, "Google Books".toList) ∧
    app_apply_cover c none = (c, "Google Books".toList) := by
  cases p with
  | nil => exact absurd rfl hp
  | cons a t => exact ⟨rfl, rfl, rfl, rfl⟩

/-- Witness for C5_amended at concrete covers. -/
theorem C5_amended_witness :
    main_apply_cover ("cat".toList) (some ("https://p".toList))
      = ("https://p".toList, "page image ✓".toList) ∧
    app_apply_cover ("cat".toList) (some ("https://p".toList))
      = ("https://p".toList, "page".toList) ∧
    main_apply_cover ("cat".toList) none = ("cat".toList, "Google Books".toList) ∧
    app_apply_cover ("cat".toList) none = ("cat".toList, "Google Books".toList) :=
  C5_amended ("cat".toList) ("https://p".toList) (by decide)

/-- Claim C8: fetch_page_info catches every fetch failure and returns
the all-empty PageInfo (the extraction code itself is total, so no
failure reaches the caller). -/
theorem C8_fetch_page_info_never_raises (e : String) :
    fetch_page_info (Except.error e) = ⟨none, none⟩ := rfl

/-- Claim C9: an input without an http(s) prefix passes through the
query builder unchanged, with no cover. -/
theorem C9_plain_text_passthrough (raw : List Char) (info : PageInfo)
    (userInput : List Char) (h : is_url raw = false) :
    get_search_query_and_cover raw info userInput = (raw, none) := by
  simp [get_search_query_and_cover, h]

/-- Witness for C9 at a plain-text input. -/
theorem C9_witness :
    get_search_query_and_cover ("Pond Claire-Louise Bennett".toList) ⟨none, none⟩ []
      = ("Pond Claire-Louise Bennett".toList, none) :=
  C9_plain_text_passthrough ("Pond Claire-Louise Bennett".toList) ⟨none, none⟩ []
    (by decide)

/-- Claim C10: clean_page_title maps every non-empty title to a
non-empty query: the by-branch always contains the joining space, the
separator branch only keeps fragments longer than four characters, and
the fallback returns the input itself. -/
theorem C10_clean_page_title_nonempty (t : List Char) (h : t ≠ []) :
    clean_page_title t ≠ [] := by
  unfold clean_page_title
  split
  · simp
  · split
    next p0 rest hp =>
      have hmem : p0 ∈ ((reSplitSep t).map pyStrip).filter (fun p => 4 < p.length) := by
        rw [hp]; exact List.mem_cons_self _ _
      have hlen : 4 < p0.length := by simpa using List.of_mem_filter hmem
      split
      · intro he
        rw [he] at hlen
        simp at hlen
      · rw [hp]
        cases rest with
        | nil =>
          intro he
          simp only [List.take, joinWith] at he
          rw [he] at hlen
          simp at hlen
        | cons q qs => simp [joinWith]
    next hp => exact h

/-- Witness for C10 at a concrete non-empty title. -/
theorem C10_witness : clean_page_title ("Pond | Fitzcarraldo".toList) ≠ [] :=
  C10_clean_page_title_nonempty ("Pond | Fitzcarraldo".toList) (by decide)

/-- Claim C6: an ISBN-shaped query (13 digits after stripping hyphens
and whitespace) issues the ISBN-exact request first and the free-text
request (maxResults 5) only when the ISBN attempt yields no items; a
non-ISBN-shaped query issues only the free-text request. -/
theorem C6_isbn_first (net : GBReq → Except (List Char) (List Item)) (q : List Char) :
    (gbIsbnShaped q = true →
      ((search_google_books net q).2.head? = some (GBReq.isbnExact (gbClean q)) ∧
       (gb_fetch net (GBReq.isbnExact (gbClean q)) ≠ [] →
         (search_google_books net q).2 = [GBReq.isbnExact (gbClean q)]) ∧
       (gb_fetch net (GBReq.isbnExact (gbClean q)) = [] →
         (search_google_books net q).2
           = [GBReq.isbnExact (gbClean q), GBReq.freeText q 5]))) ∧
    (gbIsbnShaped q = false →
      (search_google_books net q).2 = [GBReq.freeText q 5]) := by
  cases hs : gbIsbnShaped q with
  | true =>
    cases hfi : gb_fetch net (GBReq.isbnExact (gbClean q)) with
    | nil =>
      cases hft : gb_fetch net (GBReq.freeText q 5) with
      | nil => simp [search_google_books, hs, hfi, hft]
      | cons i is => simp [search_google_books, hs, hfi, hft]
    | cons i is => simp [search_google_books, hs, hfi]
  | false =>
    cases hft : gb_fetch net (GBReq.freeText q 5) with
    | nil => simp [search_google_books, hs, hft]
    | cons i is => simp [search_google_books, hs, hft]

/-- Witness for C6 with a network that finds nothing and the spec's
sample ISBN: both requests are issued, ISBN-exact first. -/
theorem C6_witness :
    (search_google_books (fun _ => Except.ok ([] : List Item))
        ("9780374533557".toList)).2
      = [GBReq.isbnExact (gbClean ("9780374533557".toList)),
         GBReq.freeText ("9780374533557".toList) 5] :=
  ((C6_isbn_first (fun _ => Except.ok ([] : List Item)) ("9780374533557".toList)).1
      (by decide)).2.2 (by decide)

/-- Claim C7: search_google_books returns `None` exactly when every
attempt it makes yields zero items, and a failed request counts as zero
items (gb_fetch catches the exception and returns the empty list)
instead of propagating. -/
theorem C7_not_found_iff (net : GBReq → Except (List Char) (List Item))
    (q : List Char) (r : GBReq) (e : List Char) (hfail : net r = Except.error e) :
    gb_fetch net r = [] ∧
    ((search_google_books net q).1 = none ↔
      (gb_fetch net (GBReq.freeText q 5) = [] ∧
       (gbIsbnShaped q = true →
         gb_fetch net (GBReq.isbnExact (gbClean q)) = []))) := by
  refine ⟨by simp [gb_fetch, hfail], ?_⟩
  cases hs : gbIsbnShaped q with
  | true =>
    cases hfi : gb_fetch net (GBReq.isbnExact (gbClean q)) with
    | nil =>
      cases hft : gb_fetch net (GBReq.freeText q 5) with
      | nil => simp [search_google_books, hs, hfi, hft]
      | cons i is => simp [search_google_books, hs, hfi, hft]
    | cons i is => simp [search_google_books, hs, hfi]
  | false =>
    cases hft : gb_fetch net (GBReq.freeText q 5) with
    | nil => simp [search_google_books, hs, hft]
    | cons i is => simp [search_google_books, hs, hft]

/-- The always-failing network of the C7 witness. -/
def gbFailNet : GBReq → Except (List Char) (List Item) :=
  fun _ => Except.error ("urlopen error timed out".toList)

/-- Witness for C7 on the failing network: the failure counts as zero
items and the lookup reports not-found. -/
theorem C7_witness :
    gb_fetch gbFailNet (GBReq.freeText ("Pond".toList) 5) = [] ∧
    ((search_google_books gbFailNet ("Pond".toList)).1 = none ↔
      (gb_fetch gbFailNet (GBReq.freeText ("Pond".toList) 5) = [] ∧
       (gbIsbnShaped ("Pond".toList) = true →
         gb_fetch gbFailNet (GBReq.isbnExact (gbClean ("Pond".toList))) = []))) :=
  C7_not_found_iff gbFailNet ("Pond".toList) (GBReq.freeText ("Pond".toList) 5)
    ("urlopen error timed out".toList) rfl

/-- The Amazon URL of the C4 counterexample, with a matching path slug. -/
def c4Raw : List Char :=
  "https://www.amazon.com/Pond-Claire-Louise-Bennett/dp/0399575892".toList

/-- The page-fetch result of the C4 counterexample: the page has a title
and an og:image cover. -/
def c4Info : PageInfo :=
  ⟨some ("Pond".toList), some ("https://m.media-amazon.com/pond.jpg".toList)⟩

/-- Claim C4 counterexample: on an Amazon URL whose path slug matches,
the CLI still fetches the page and returns its cover, while the HTTP
endpoint skips the fetch and returns no cover — the two variants do not
compute the same (query, cover) pair even with identical page-fetch
results. -/
theorem C4_counterexample :
    get_search_query_and_cover c4Raw c4Info [] ≠ app_query_and_cover c4Raw c4Info := by
  decide

/-- Claim C4, amended: assuming identical page-fetch results and a
truthy page title, the endpoint computes the same (query, cover) pair as
the CLI, except on Amazon URLs whose path slug matches, where both agree
on the slug query but the endpoint performs no page fetch and reports no
cover while the CLI reports the page cover.  (Without a truthy title the
CLI additionally falls back to interactive input on generic and
slug-less goodreads pages, which the endpoint cannot do.) -/
theorem C4_amended (raw : List Char) (info : PageInfo) (u : List Char)
    (ht : optTruthy info.title = true) :
    (∀ g, amazonSlug raw = some g → is_url raw = true →
       containsSub ("amazon.".toList) raw = true →
       get_search_query_and_cover raw info u = (dashToSpace g, info.cover) ∧
       app_query_and_cover raw info = (dashToSpace g, none)) ∧
    ((is_url raw = true → containsSub ("amazon.".toList) raw = true →
        amazonSlug raw = none) →
      get_search_query_and_cover raw info u = app_query_and_cover raw info) := by
  cases hu : is_url raw with
  | false =>
    refine ⟨fun g hg hurl => Bool.noConfusion hurl, fun _ => ?_⟩
    unfold get_search_query_and_cover app_query_and_cover
    rw [hu]
    rfl
  | true =>
    cases ha : containsSub ("amazon.".toList) raw with
    | true =>
      cases hslug : amazonSlug raw with
      | some g =>
        refine ⟨fun g' hg' _ _ => ?_, fun hnone => ?_⟩
        · cases hg'
          constructor
          · unfold get_search_query_and_cover
            rw [hu, ha, hslug]
            rfl
          · unfold app_query_and_cover
            rw [hu, ha, hslug]
            rfl
        · exact absurd (hnone rfl rfl) (by simp)
      | none =>
        refine ⟨fun g hg => Option.noConfusion hg, fun _ => ?_⟩
        unfold get_search_query_and_cover app_query_and_cover
        rw [hu, ha, hslug]
        rfl
    | false =>
      refine ⟨fun g hg hurl hc => Bool.noConfusion hc, fun _ => ?_⟩
      cases hgr : containsSub ("goodreads.com".toList) raw with
      | true =>
        cases hgs : goodreadsSlug raw with
        | some g =>
          unfold get_search_query_and_cover app_query_and_cover
          rw [hu, ha, hgr, hgs]
          rfl
        | none =>
          unfold get_search_query_and_cover app_query_and_cover generic_branch
          rw [hu, ha, hgr, hgs, ht]
          rfl
      | false =>
        unfold get_search_query_and_cover app_query_and_cover generic_branch
        rw [hu, ha, hgr, ht]
        rfl

/-- Witness for C4_amended on a non-Amazon input with a truthy title:
both variants compute the same pair. -/
theorem C4_amended_witness :
    get_search_query_and_cover ("Pond Bennett".toList)
        ⟨some ("T".toList), none⟩ []
      = app_query_and_cover ("Pond Bennett".toList) ⟨some ("T".toList), none⟩ :=
  (C4_amended ("Pond Bennett".toList) ⟨some ("T".toList), none⟩ [] (by decide)).2
    (by decide)

/-- Witness for C8 at a concrete failure. -/
theorem C8_witness : fetch_page_info (Except.error "timed out") = ⟨none, none⟩ :=
  C8_fetch_page_info_never_raises "timed out"
